import Mathlib

/-!
A shallow embedding of `aiokef.py`, the asynchronous KEF speaker driver.

Modelling conventions:
* Byte strings are `List Nat` (each element a byte value 0..255).
* A speaker device is an oracle `Dev σ`: a transition function from a
  device state and a written message to the raw reply bytes and the next
  device state.  The driver's operations are functions in a state monad
  `M σ` threading the device state and the list of messages written so
  far, and returning `Except Err` results; a Python exception escaping a
  method is an `Except.error`.
* Python floats are modelled as rationals: every float literal the driver
  manipulates in the claims below (0.05, 1.0, 1.5, divisions by 100.0)
  is exactly representable, so no rounding behaviour is lost.
* The `tenacity` `@retry` decorators re-invoke a whole method when it
  raises, with an unchanged per-attempt behaviour against the
  deterministic device oracles used here; the model therefore describes
  a single attempt, whose final outcome coincides with the decorated
  method's.
* `asyncio` scheduling and `sleep` calls have no observable effect on
  the values computed and are dropped.
-/

deriving instance DecidableEq for Except

namespace Aiokef

/-- Python exceptions that the driver can raise. -/
inductive Err where
  | protocolError
  | connectionError
  | timeoutError
  | assertionError
  | indexError
  | typeError
  | keyError
  | unboundLocalError
  | fuelExhausted
deriving DecidableEq, Repr

/-- The decoded speaker state, `State = namedtuple("State", ...)`. -/
structure State where
  source : String
  is_on : Bool
  standby_time : Option Nat
  orientation : String
deriving DecidableEq, Repr

/-- The environment threaded through the driver: the device-side state
and the list of messages written to the socket so far. -/
structure Env (σ : Type) where
  dev : σ
  sent : List (List Nat)
deriving DecidableEq, Repr

/-- A device oracle: given its state and a written message, produce the
raw reply bytes and the next device state. -/
def Dev (σ : Type) : Type := σ → List Nat → List Nat × σ

/-- The driver monad: deterministic state passing plus exceptions. -/
def M (σ : Type) (α : Type) : Type := Env σ → Except Err α × Env σ

instance : Monad (M σ) where
  pure a := fun e => (Except.ok a, e)
  bind x f := fun e =>
    match x e with
    | (Except.ok a, e2) => f a e2
    | (Except.error err, e2) => (Except.error err, e2)

/-- Raise a Python exception. -/
def throwErr (err : Err) : M σ α := fun e => (Except.error err, e)

/-- Lift a pure fallible computation into the driver monad. -/
def liftE (x : Except Err α) : M σ α := fun e => (x, e)

/-- A device with no internal state: replies depend only on the message. -/
def statelessDev (f : List Nat → List Nat) : Dev Unit := fun u msg => (f msg, u)

/-! ### Protocol constants and commands (module-level constants) -/

/-- `_RESPONSE_OK = 17`; the full response is `[82, 17, 255]`. -/
def RESPONSE_OK : Nat := 17

/-- `COMMANDS["get_source"] = bytes([ord("G"), ord("0"), 128])`. -/
def getSourceMsg : List Nat := [71, 48, 128]

/-- `COMMANDS["get_volume"] = bytes([ord("G"), ord("%"), 128])`. -/
def getVolumeMsg : List Nat := [71, 37, 128]

/-- `COMMANDS["set_source"](i) = bytes([ord("S"), ord("0"), 129, i])`. -/
def setSourceMsg (i : Nat) : List Nat := [83, 48, 129, i]

/-- `COMMANDS["set_volume"](v) = bytes([ord("S"), ord("%"), 129, v])`. -/
def setVolumeMsg (v : Nat) : List Nat := [83, 37, 129, v]

/-! ### Source tables -/

/-- `INPUT_SOURCES_20_MINUTES_LR`, in insertion order. -/
def INPUT_SOURCES_20_MINUTES_LR : List (String × Nat) :=
  [("Bluetooth", 9), ("Bluetooth_paired", 15), ("Aux", 10),
   ("Opt", 11), ("Usb", 12), ("Wifi", 2)]

/-- `STANDBY_OPTIONS = [20, 60, None]` (minutes; `none` means never). -/
def STANDBY_OPTIONS : List (Option Nat) := [some 20, some 60, none]

/-- `INPUT_SOURCES`: for each source, a map from the standby option to
the pair of codes `(LR, LR + 64)` where `LR = base + index * 16`. -/
def INPUT_SOURCES : List (String × List (Option Nat × (Nat × Nat))) :=
  INPUT_SOURCES_20_MINUTES_LR.map fun sc =>
    (sc.1, STANDBY_OPTIONS.enum.map fun it =>
      (it.2, (sc.2 + it.1 * 16, sc.2 + it.1 * 16 + 64)))

/-- `source.replace("_paired", "")` on the character list: remove each
(left-to-right, non-overlapping) occurrence of `"_paired"`. -/
def stripPairedChars : List Char → List Char
  | [] => []
  | '_' :: 'p' :: 'a' :: 'i' :: 'r' :: 'e' :: 'd' :: rest => stripPairedChars rest
  | c :: rest => c :: stripPairedChars rest

/-- `source.replace("_paired", "")`. -/
def stripPaired (s : String) : String := ⟨stripPairedChars s.data⟩

/-- `INPUT_SOURCES_RESPONSE`: code -> (source with `"_paired"` stripped,
standby option, orientation string).  All 36 keys are distinct, so the
first-match list lookup coincides with the Python dict. -/
def INPUT_SOURCES_RESPONSE : List (Nat × (String × Option Nat × String)) :=
  INPUT_SOURCES.foldl
    (fun acc sm =>
      let sname := stripPaired sm.1
      acc ++ sm.2.foldl
        (fun acc2 t =>
          acc2 ++ [(t.2.1, (sname, t.1, "L/R")), (t.2.2, (sname, t.1, "R/L"))])
        [])
    []

/-- Dict lookup `INPUT_SOURCES[source]`. -/
def lookupSource (s : String) : Option (List (Option Nat × (Nat × Nat))) :=
  (INPUT_SOURCES.find? (fun p => p.1 == s)).map Prod.snd

/-- Dict lookup `INPUT_SOURCES_RESPONSE[code]`. -/
def lookupResponse (c : Nat) : Option (String × Option Nat × String) :=
  (INPUT_SOURCES_RESPONSE.find? (fun p => p.1 == c)).map Prod.snd

/-- The forward encoding: `INPUT_SOURCES[s][t][inverse]`, i.e. the wire
code of source `s` under standby option `t`, orientation index
`inverse` (`false` = L/R, `true` = R/L). -/
def encodeSource (s : String) (t : Option Nat) (inverse : Bool) : Option Nat :=
  (lookupSource s).bind fun m =>
    (m.find? (fun p => p.1 == t)).map fun p =>
      if inverse then p.2.2 else p.2.1

/-! ### Response parsing (`_parse_response`) -/

/-- `bytes.split(sep)` on byte strings: chunks between separator bytes,
empty chunks included (`[].split` gives one empty chunk). -/
def splitBytes (sep : Nat) : List Nat → List (List Nat)
  | [] => [[]]
  | b :: rest =>
    let r := splitBytes sep rest
    if b = sep then [] :: r
    else
      match r with
      | [] => [[b]]
      | c :: cs => (b :: c) :: cs

/-- `responses = [b"R" + i for i in reply.split(b"R") if i]`. -/
def mkResponses (reply : List Nat) : List (List Nat) :=
  ((splitBytes 82 reply).filter (fun c => !c.isEmpty)).map (fun c => 82 :: c)

/-- `_parse_response(message, reply)`: pick the matching frame for a
`G` query, or require the fixed OK frame after an `S` command.  A
message that starts with neither would make Python return `None`, so the
subsequent subscript raises `TypeError`. -/
def parse_response (message reply : List Nat) : Except Err (List Nat) :=
  let responses := mkResponses reply
  if message.head? == some 71 then
    match message.get? 1 with
    | none => Except.error Err.indexError
    | some which =>
      match responses.find? (fun r => r.get? 1 == some which) with
      | some r => Except.ok r
      | none => Except.error Err.protocolError
  else if message.head? == some 83 then
    if responses.contains [82, 17, 255] then Except.ok [82, 17, 255]
    else Except.error Err.protocolError
  else Except.error Err.typeError

/-- Python `frame[-2]`: the second-to-last element; `IndexError` when the
frame has fewer than two elements. -/
def pyIndexNeg2 (l : List Nat) : Except Err Nat :=
  if 2 ≤ l.length then
    match l.get? (l.length - 2) with
    | some x => Except.ok x
    | none => Except.error Err.indexError
  else Except.error Err.indexError

/-- The pure part of `send_message`: parse the raw reply against the
message and extract the byte at index `-2` of the chosen frame. -/
def extractReply (message reply : List Nat) : Except Err Nat :=
  (parse_response message reply).bind pyIndexNeg2

/-- `_AsyncCommunicator.send_message`: write the message, read the device
reply, parse it and return `_parse_response(msg, raw_reply)[-2]`. -/
def send_message (d : Dev σ) (msg : List Nat) : M σ Nat := fun e =>
  let rs := d e.dev msg
  (extractReply msg rs.1, ⟨rs.2, e.sent ++ [msg]⟩)

/-! ### Controller configuration -/

/-- The constructor arguments of `AsyncKefSpeaker` that the operations
read (`standby_time`, `inverse_speaker_mode`, `volume_step`,
`maximum_volume`). -/
structure Config where
  standby_time : Option Nat
  inverse_speaker_mode : Bool
  volume_step : ℚ
  maximum_volume : ℚ
deriving DecidableEq

/-- A controller at the defaults used in the claims: standby 20 minutes,
L/R orientation, `volume_step = 0.05`, `maximum_volume = 1.0`. -/
def cfg20LR : Config := ⟨some 20, false, 5 / 100, 1⟩

/-! ### State (source/power) operations -/

/-- The pure decoding step of `get_state`: `is_on = response <= 128`,
`code = response % 128`, then the `INPUT_SOURCES_RESPONSE` lookup
(`ConnectionError` when the code is unmapped). -/
def decode_state (response : Nat) : Except Err State :=
  let is_on := decide (response ≤ 128)
  let code := response % 128
  match lookupResponse code with
  | none => Except.error Err.connectionError
  | some sto => Except.ok ⟨sto.1, is_on, sto.2.1, sto.2.2⟩

/-- `AsyncKefSpeaker.get_state`. -/
def get_state (d : Dev σ) : M σ State := do
  let response ← send_message d getSourceMsg
  liftE (decode_state response)

/-- `AsyncKefSpeaker.get_source`. -/
def get_source (d : Dev σ) : M σ String := do
  let st ← get_state d
  pure st.source

/-- `AsyncKefSpeaker.is_on`. -/
def is_on (d : Dev σ) : M σ Bool := do
  let st ← get_state d
  pure st.is_on

/-- The polling loop of `set_source`: up to `fuel` iterations of
`get_source`, raising `TimeoutError` when the bound is exhausted
(`for i in range(_MAX_ATTEMPT_TILL_SUCCESS)` followed by `raise`). -/
def set_source_poll (d : Dev σ) (source : String) : Nat → M σ Unit
  | 0 => throwErr Err.timeoutError
  | n + 1 => do
    let cur ← get_source d
    if cur == source then pure () else set_source_poll d source n

/-- `AsyncKefSpeaker.set_source(source, state)`.  The Python
`assert source in INPUT_SOURCES` raises `AssertionError` on an unknown
name; `INPUT_SOURCES[source][self.standby_time]` raises `KeyError` when
the configured standby time is not an option (the constructor rules that
out); the tuple index `[self.inverse_speaker_mode]` picks L/R for
`False` and R/L for `True`. -/
def set_source (d : Dev σ) (cfg : Config) (source : String) (state : String) :
    M σ Unit := do
  match lookupSource source with
  | none => throwErr Err.assertionError
  | some m =>
    match m.find? (fun p => p.1 == cfg.standby_time) with
    | none => throwErr Err.keyError
    | some p =>
      let i0 := (if cfg.inverse_speaker_mode then p.2.2 else p.2.1) % 128
      let i := if state == "off" then i0 + 128 else i0
      let response ← send_message d (setSourceMsg i)
      if response ≠ RESPONSE_OK then throwErr Err.connectionError
      else set_source_poll d source 10

/-- Python `source or state.source`: `None` and the empty string are
falsy, so they fall back to the current source. -/
def orSource (source : Option String) (dflt : String) : String :=
  match source with
  | none => dflt
  | some s => if s == "" then dflt else s

/-- The polling loop of `turn_on`: up to `fuel` iterations of `is_on`;
when the bound is exhausted the loop simply ends and the method returns
without raising. -/
def turn_on_poll (d : Dev σ) : Nat → M σ Unit
  | 0 => pure ()
  | n + 1 => do
    let b ← is_on d
    if b then pure () else turn_on_poll d n

/-- The polling loop of `turn_off`: up to `fuel` iterations of `is_on`,
waiting for it to become false; exhausting the bound returns without
raising. -/
def turn_off_poll (d : Dev σ) : Nat → M σ Unit
  | 0 => pure ()
  | n + 1 => do
    let b ← is_on d
    if b then turn_off_poll d n else pure ()

/-- `AsyncKefSpeaker.turn_on(source)`: read the state, return if already
on, otherwise set the requested (or current) source with state "on" and
poll `is_on` up to 20 times. -/
def turn_on (d : Dev σ) (cfg : Config) (source : Option String) : M σ Unit := do
  let st ← get_state d
  if st.is_on then pure ()
  else do
    set_source d cfg (orSource source st.source) "on"
    turn_on_poll d 20

/-- `AsyncKefSpeaker.turn_off()`: read the state, return if already off,
otherwise set the current source with state "off" and poll `is_on` up to
20 times until it is false. -/
def turn_off (d : Dev σ) (cfg : Config) : M σ Unit := do
  let st ← get_state d
  if st.is_on then do
    set_source d cfg st.source "off"
    turn_off_poll d 20
  else pure ()

/-! ### Volume operations -/

/-- The pure decode of `get_volume_and_is_muted` at `scale=False`:
the reply byte itself and `is_muted = volume >= 128`. -/
def decode_volume_raw (volume : Nat) : Nat × Bool :=
  (volume, decide (128 ≤ volume))

/-- `AsyncKefSpeaker.get_volume_and_is_muted(scale=False)`: the raw
reply byte and the mute flag. -/
def get_volume_and_is_muted_raw (d : Dev σ) : M σ (Nat × Bool) := do
  let volume ← send_message d getVolumeMsg
  pure (decode_volume_raw volume)

/-- `AsyncKefSpeaker.get_volume_and_is_muted(scale=True)`: the reply
byte divided by `_VOLUME_SCALE = 100.0` and the mute flag. -/
def get_volume_and_is_muted_scaled (d : Dev σ) : M σ (ℚ × Bool) := do
  let volume ← send_message d getVolumeMsg
  pure ((volume : ℚ) / 100, decide (128 ≤ volume))

/-- `AsyncKefSpeaker.get_volume()`: scaled level, or `none` when muted. -/
def get_volume (d : Dev σ) : M σ (Option ℚ) := do
  let vm ← get_volume_and_is_muted_scaled d
  pure (if vm.2 then none else some vm.1)

/-- `AsyncKefSpeaker.is_muted()`. -/
def is_muted (d : Dev σ) : M σ Bool := do
  let vm ← get_volume_and_is_muted_raw d
  pure vm.2

/-- `AsyncKefSpeaker._set_volume(volume)`: send the set-volume command
and require the OK response. -/
def set_volume_wire (d : Dev σ) (volume : Nat) : M σ Unit := do
  let response ← send_message d (setVolumeMsg volume)
  if response ≠ RESPONSE_OK then throwErr Err.connectionError else pure ()

/-- Python `int()` on a rational: truncation toward zero. -/
def pyInt (q : ℚ) : ℤ :=
  if 0 ≤ q then ⌊q⌋ else ⌈q⌉

/-- Python `min(a, b)`: `a` when `a <= b`, else `b`. -/
def pyMin (a b : ℚ) : ℚ := if a ≤ b then a else b

/-- Python `max(a, b)`: `a` when `a >= b`, else `b`. -/
def pyMax (a b : ℚ) : ℚ := if b ≤ a then a else b

/-- `AsyncKefSpeaker.set_volume(value)`: clamp to
`[0, maximum_volume]`, send `int(volume * 100)`, return the clamp. -/
def set_volume (d : Dev σ) (cfg : Config) (value : ℚ) : M σ ℚ := do
  let volume := pyMax 0 (pyMin cfg.maximum_volume value)
  set_volume_wire d (pyInt (volume * 100)).toNat
  pure volume

/-- The value `mute()` writes back, `int(volume) % 128 + 128`. -/
def muteWriteValue (volume : Nat) : Nat := volume % 128 + 128

/-- The value `unmute()` writes back, `int(volume) % 128`. -/
def unmuteWriteValue (volume : Nat) : Nat := volume % 128

/-- `AsyncKefSpeaker.mute()`: read the raw volume byte, write back
`volume % 128 + 128`. -/
def mute (d : Dev σ) : M σ Unit := do
  let vm ← get_volume_and_is_muted_raw d
  set_volume_wire d (muteWriteValue vm.1)

/-- `AsyncKefSpeaker.unmute()`: read the raw volume byte, write back
`volume % 128`. -/
def unmute (d : Dev σ) : M σ Unit := do
  let vm ← get_volume_and_is_muted_raw d
  set_volume_wire d (unmuteWriteValue vm.1)

/-- `AsyncKefSpeaker._change_volume(step)`: capture `get_volume()`
(which is `None` while muted), read the mute flag, unmute if needed,
then `assert volume is not None` and set `volume + step`. -/
def change_volume (d : Dev σ) (cfg : Config) (step : ℚ) : M σ ℚ := do
  let volume ← get_volume d
  let m ← is_muted d
  if m then unmute d else pure ()
  match volume with
  | none => throwErr Err.assertionError
  | some v => set_volume d cfg (v + step)

/-- `AsyncKefSpeaker.increase_volume()`. -/
def increase_volume (d : Dev σ) (cfg : Config) : M σ ℚ :=
  change_volume d cfg cfg.volume_step

/-- `AsyncKefSpeaker.decrease_volume()`. -/
def decrease_volume (d : Dev σ) (cfg : Config) : M σ ℚ :=
  change_volume d cfg (-cfg.volume_step)

/-! ### Connection manager (`_AsyncCommunicator`) -/

/-- The outcome of one `asyncio.open_connection` attempt as observed by
`open_connection`'s `try` block. -/
inductive AttemptResult where
  | success
  | refused
  | blocking
  | hostDown
deriving DecidableEq, Repr

/-- The outcome of `_AsyncCommunicator.open_connection`:
`connected` (returns, `_is_online = True`), `offline`
(`ConnectionRefusedError("Speaker is offline.")`, `_is_online = False`),
`triesExceeded` (`ConnectionRefusedError("Connection tries exceeded.")`,
`_is_online = False`), or `outOfFuel`, a modelling marker for runs whose
`BlockingIOError` resets keep the `while` loop alive beyond the fuel. -/
inductive ConnOutcome where
  | connected
  | offline
  | triesExceeded
  | outOfFuel
deriving DecidableEq, Repr

/-- The `while retries < _MAX_CONNECTION_RETRIES` loop of
`open_connection`, over an oracle `att` giving the result of the `k`-th
attempt: `refused` sleeps and increments `retries`; `blocking` sets
`retries = 0` before the shared `retries += 1`; a timeout or OS error
raises "Speaker is offline"; falling out of the loop raises "Connection
tries exceeded". -/
def open_connection_loop (att : Nat → AttemptResult) :
    Nat → Nat → Nat → ConnOutcome
  | _, _, 0 => ConnOutcome.outOfFuel
  | k, retries, fuel + 1 =>
    if retries < 10 then
      match att k with
      | AttemptResult.success => ConnOutcome.connected
      | AttemptResult.refused => open_connection_loop att (k + 1) (retries + 1) fuel
      | AttemptResult.blocking => open_connection_loop att (k + 1) 1 fuel
      | AttemptResult.hostDown => ConnOutcome.offline
    else ConnOutcome.triesExceeded

/-- `_AsyncCommunicator.open_connection` on a communicator that is not
currently connected, starting from `retries = 0`. -/
def open_connection (att : Nat → AttemptResult) (fuel : Nat) : ConnOutcome :=
  open_connection_loop att 0 0 fuel

/-- The `_is_online` flag after `open_connection` resolves. -/
def is_online_flag : ConnOutcome → Bool
  | ConnOutcome.connected => true
  | _ => false

/-- `AsyncKefSpeaker.is_online()`: try `open_connection`, catch
`ConnectionRefusedError` (asserting `_is_online` is false there), and
return `_is_online` from the `finally` block. -/
def is_online (att : Nat → AttemptResult) (fuel : Nat) : Except Err Bool :=
  match open_connection att fuel with
  | ConnOutcome.connected => Except.ok true
  | ConnOutcome.offline => Except.ok false
  | ConnOutcome.triesExceeded => Except.ok false
  | ConnOutcome.outOfFuel => Except.error Err.fuelExhausted

/-- `_AsyncCommunicator._send_message`'s read stage.  The local `data`
is assigned only inside the `try:` block; on `asyncio.TimeoutError`
(`readResult = none`) the `except` clause merely logs, and the
`finally: return data` then evaluates an unassigned local, which raises
`UnboundLocalError` instead of returning empty data. -/
def send_message_read (readResult : Option (List Nat)) : Except Err (List Nat) :=
  match readResult with
  | some data => Except.ok data
  | none => Except.error Err.unboundLocalError

/-! ### Concrete device oracles used in the scenarios -/

/-- Replies of a device that answers `get_source` with the literal
3-byte frame `0x52 0x30 0x0A` of the specification's wire table, and
acknowledges the Aux set command. -/
def devThreeByteFun (msg : List Nat) : List Nat :=
  if msg == getSourceMsg then [82, 48, 10]
  else if msg == setSourceMsg 10 then [82, 17, 255]
  else []

/-- The 3-byte-reply device. -/
def devThreeByte : Dev Unit := statelessDev devThreeByteFun

/-- Replies of a device answering `get_source` with a 5-byte frame
`0x52 0x30 0x81 0x0A 0x92` (value `0x0A` = Aux/on in the second-to-last
position) and acknowledging the Aux set command. -/
def devAuxOnFun (msg : List Nat) : List Nat :=
  if msg == setSourceMsg 10 then [82, 17, 255]
  else if msg == getSourceMsg then [82, 48, 129, 10, 146]
  else []

/-- The Aux-powered-on device. -/
def devAuxOn : Dev Unit := statelessDev devAuxOnFun

/-- Replies of a device that always reports Aux in the powered-off range
(code `10 + 128 = 138`) and acknowledges every set command. -/
def devAuxOffFun (msg : List Nat) : List Nat :=
  if msg == getSourceMsg then [82, 48, 129, 138, 146]
  else if msg.take 3 == [83, 48, 129] then [82, 17, 255]
  else []

/-- The Aux-powered-off device. -/
def devAuxOff : Dev Unit := statelessDev devAuxOffFun

/-- Replies of a device that reports Bluetooth (code 9, on) and
acknowledges every set command; used to exercise
`set_source("Bluetooth_paired")`. -/
def devBluetoothFun (msg : List Nat) : List Nat :=
  if msg == getSourceMsg then [82, 48, 129, 9, 146]
  else if msg.take 3 == [83, 48, 129] then [82, 17, 255]
  else []

/-- The Bluetooth-powered-on device. -/
def devBluetooth : Dev Unit := statelessDev devBluetoothFun

/-- A stateful volume device: its state is the stored raw volume byte;
a volume query is answered with the frame
`0x52 0x25 0x81 <value> 0xFF`, and a set-volume command stores the sent
byte and acknowledges. -/
def volDev : Dev Nat := fun v msg =>
  if msg == getVolumeMsg then ([82, 37, 129, v, 255], v)
  else if msg.take 3 == [83, 37, 129] then ([82, 17, 255], msg.getD 3 v)
  else ([], v)

/-- Replies of a device that acknowledges every set-volume command. -/
def ackVolDevFun (msg : List Nat) : List Nat :=
  if msg.take 3 == [83, 37, 129] then [82, 17, 255] else []

/-- The acknowledge-everything volume device. -/
def ackVolDev : Dev Unit := statelessDev ackVolDevFun

/-- The initial run environment over a stateless device. -/
def env0 : Env Unit := ⟨(), []⟩

/-- A controller configuration with the given maximum volume and the
other constructor defaults. -/
def cfgMax (maxv : ℚ) : Config := ⟨some 20, false, 5 / 100, maxv⟩

/-! ### Run-evaluation lemmas -/

theorem bind_apply (x : M σ α) (f : α → M σ β) (e : Env σ) :
    (x >>= f) e =
      match x e with
      | (Except.ok a, e2) => f a e2
      | (Except.error err, e2) => (Except.error err, e2) := rfl

theorem bind_apply_ok (x : M σ α) (f : α → M σ β) (e e2 : Env σ) (a : α)
    (h : x e = (Except.ok a, e2)) : (x >>= f) e = f a e2 := by
  rw [bind_apply, h]

theorem bind_apply_error (x : M σ α) (f : α → M σ β) (e e2 : Env σ) (err : Err)
    (h : x e = (Except.error err, e2)) : (x >>= f) e = (Except.error err, e2) := by
  rw [bind_apply, h]

/-- Running `get_state` over a stateless device writes exactly the
get-source query and returns the parse-and-decode of the device's
reply to it. -/
theorem get_state_stateless (f : List Nat → List Nat) (e : Env Unit) :
    get_state (statelessDev f) e =
      ((extractReply getSourceMsg (f getSourceMsg)).bind decode_state,
        ⟨(), e.sent ++ [getSourceMsg]⟩) := by
  rw [get_state, bind_apply]
  cases h : extractReply getSourceMsg (f getSourceMsg) with
  | ok a => simp [send_message, statelessDev, h, liftE, Except.bind]
  | error err => simp [send_message, statelessDev, h, Except.bind]

/-- Running `is_on` over a stateless device. -/
theorem is_on_stateless (f : List Nat → List Nat) (e : Env Unit) :
    is_on (statelessDev f) e =
      (((extractReply getSourceMsg (f getSourceMsg)).bind decode_state).map
          State.is_on,
        ⟨(), e.sent ++ [getSourceMsg]⟩) := by
  rw [is_on, bind_apply, get_state_stateless]
  cases (extractReply getSourceMsg (f getSourceMsg)).bind decode_state with
  | ok a => rfl
  | error err => rfl

/-- On the always-off Aux device each `is_on` poll returns false and
writes one get-source query. -/
theorem is_on_devAuxOff (e : Env Unit) :
    is_on devAuxOff e = (Except.ok false, ⟨(), e.sent ++ [getSourceMsg]⟩) := by
  rw [devAuxOff, is_on_stateless]; rfl

/-- Exhausting the `turn_on` poll loop on the always-off Aux device
returns without raising, having written one query per iteration. -/
theorem turn_on_poll_devAuxOff (n : Nat) : ∀ e : Env Unit,
    turn_on_poll devAuxOff n e =
      (Except.ok (), ⟨(), e.sent ++ List.replicate n getSourceMsg⟩) := by
  induction n with
  | zero => intro e; simp [turn_on_poll, pure]
  | succ n ih =>
    intro e
    rw [turn_on_poll, bind_apply_ok _ _ _ _ _ (is_on_devAuxOff e)]
    simp only [Bool.false_eq_true, if_false, ih, List.append_assoc,
      List.replicate_succ, List.singleton_append]

/-- `get_state` on the always-off Aux device decodes Aux, powered off. -/
theorem get_state_devAuxOff (e : Env Unit) :
    get_state devAuxOff e =
      (Except.ok ⟨"Aux", false, some 20, "L/R"⟩, ⟨(), e.sent ++ [getSourceMsg]⟩) := by
  rw [devAuxOff, get_state_stateless]; rfl

/-- `set_source("Aux", state="on")` on the always-off Aux device: the
set command is acknowledged and the first poll already reads back
source Aux (the power bit is not part of the source name), so the call
returns after two messages. -/
theorem set_source_devAuxOff (e : Env Unit) :
    set_source devAuxOff cfg20LR "Aux" "on" e =
      (Except.ok (), ⟨(), e.sent ++ [setSourceMsg 10] ++ [getSourceMsg]⟩) := rfl

/-- `turn_on()` on a stateless device whose reply decodes to a
powered-on state returns after the single state query, sending no set
command (for any configuration). -/
theorem turn_on_stateless_on (f : List Nat → List Nat) (cfg : Config)
    (st : State) (e : Env Unit)
    (h : (extractReply getSourceMsg (f getSourceMsg)).bind decode_state
        = Except.ok st)
    (hon : st.is_on = true) :
    turn_on (statelessDev f) cfg none e =
      (Except.ok (), ⟨(), e.sent ++ [getSourceMsg]⟩) := by
  rw [turn_on, bind_apply_ok _ _ _ _ _ (by rw [get_state_stateless, h]), hon]
  rfl

/-- `turn_off()` on a stateless device whose reply decodes to a
powered-off state returns after the single state query, sending no set
command (for any configuration). -/
theorem turn_off_stateless_off (f : List Nat → List Nat) (cfg : Config)
    (st : State) (e : Env Unit)
    (h : (extractReply getSourceMsg (f getSourceMsg)).bind decode_state
        = Except.ok st)
    (hoff : st.is_on = false) :
    turn_off (statelessDev f) cfg e =
      (Except.ok (), ⟨(), e.sent ++ [getSourceMsg]⟩) := by
  rw [turn_off, bind_apply_ok _ _ _ _ _ (by rw [get_state_stateless, h]), hoff]
  rfl

/-- `turn_on()` on the always-off Aux device: the state query, the
acknowledged set command, `set_source`'s one confirmation poll, then
all 20 power polls fail — and the call returns `ok` anyway. -/
theorem turn_on_devAuxOff (e : Env Unit) :
    turn_on devAuxOff cfg20LR none e =
      (Except.ok (),
        ⟨(), e.sent ++ [getSourceMsg] ++ [setSourceMsg 10] ++ [getSourceMsg]
          ++ List.replicate 20 getSourceMsg⟩) := by
  rw [turn_on, bind_apply_ok _ _ _ _ _ (get_state_devAuxOff e)]
  simp only [Bool.false_eq_true, if_false, orSource]
  rw [bind_apply_ok _ _ _ _ _ (set_source_devAuxOff _), turn_on_poll_devAuxOff]

/-! ### Claims -/

/-- C1: for every settable source in Bluetooth/Aux/Opt/Usb/Wifi, every
standby policy in 20/60/never and both orientations, the forward
encoding equals base code + 16 x policy index (+64 for R/L) and decodes
back to exactly that triple; every code of the read-only alias
`Bluetooth_paired` decodes to source name `Bluetooth` with the same
policy and orientation. -/
theorem source_code_roundtrip :
    (∀ s ∈ ["Bluetooth", "Aux", "Opt", "Usb", "Wifi"],
      ∀ t ∈ STANDBY_OPTIONS, ∀ inv ∈ [false, true],
        (encodeSource s t inv).bind lookupResponse
          = some (s, t, if inv then "R/L" else "L/R"))
  ∧ (∀ t ∈ STANDBY_OPTIONS, ∀ inv ∈ [false, true],
      (encodeSource "Bluetooth_paired" t inv).bind lookupResponse
        = some ("Bluetooth", t, if inv then "R/L" else "L/R"))
  ∧ (∀ sb ∈ INPUT_SOURCES_20_MINUTES_LR, ∀ it ∈ STANDBY_OPTIONS.enum,
      encodeSource sb.1 it.2 false = some (sb.2 + 16 * it.1)
      ∧ encodeSource sb.1 it.2 true = some (sb.2 + 16 * it.1 + 64)) := by
  refine ⟨by decide, by decide, by decide⟩

/-- C1 witness: the round trip at (Aux, 20 min, L/R) and the alias at
(60 min, R/L). -/
theorem source_code_roundtrip_witness :
    (encodeSource "Aux" (some 20) false).bind lookupResponse
      = some ("Aux", some 20, "L/R")
  ∧ (encodeSource "Bluetooth_paired" (some 60) true).bind lookupResponse
      = some ("Bluetooth", some 60, "R/L") :=
  ⟨source_code_roundtrip.1 "Aux" (by decide) (some 20) (by decide) false (by decide),
   source_code_roundtrip.2.1 (some 60) (by decide) true (by decide)⟩

set_option maxHeartbeats 1600000 in
/-- C2 counterexample: against a device that answers the get-source
query with the literal 3-byte frame `0x52 0x30 0x0A`, `get_state`
sends `0x47 0x30 0x80` but then fails with `ConnectionError` instead of
returning Aux/on: the reply byte is taken from index -2 of the frame,
which in a 3-byte frame is the field selector `0x30` = 48, an unmapped
code. -/
theorem get_reply_three_bytes_fails :
    (get_state devThreeByte env0).2.sent = [[71, 48, 128]]
  ∧ (get_state devThreeByte env0).1 = Except.error Err.connectionError
  ∧ (get_state devThreeByte env0).1 ≠ Except.ok ⟨"Aux", true, some 20, "L/R"⟩
  ∧ extractReply getSourceMsg [82, 48, 10] = Except.ok 48 := by
  refine ⟨by decide, by decide, by decide, by decide⟩

set_option maxHeartbeats 1600000 in
/-- C2 amended: with standby_time=20 and inverse_speaker_mode=False,
`set_source("Aux", state="on")` sends `0x53 0x30 0x81 0x0A` and accepts
a reply containing the frame `0x52 0x11 0xFF` (whose byte at index -2
is `0x11` = `_RESPONSE_OK`); `get_source`/`get_state` sends
`0x47 0x30 0x80`, and a reply frame carrying the value at its
second-to-last byte, such as `0x52 0x30 0x81 0x0A 0x92`, decodes to
source Aux with `is_on = True`. -/
theorem aux_set_get_scenario :
    (set_source devAuxOn cfg20LR "Aux" "on" env0).1 = Except.ok ()
  ∧ (set_source devAuxOn cfg20LR "Aux" "on" env0).2.sent
      = [[83, 48, 129, 10], [71, 48, 128]]
  ∧ extractReply (setSourceMsg 10) [82, 17, 255] = Except.ok RESPONSE_OK
  ∧ (get_state devAuxOn env0).2.sent = [[71, 48, 128]]
  ∧ (get_state devAuxOn env0).1 = Except.ok ⟨"Aux", true, some 20, "L/R"⟩ := by
  refine ⟨by decide, by decide, by decide, by decide, by decide⟩

set_option maxHeartbeats 1600000 in
/-- C3: the code accepts the read-only alias as a set target: the key
`Bluetooth_paired` is in `INPUT_SOURCES` (the set that the
`assert source in INPUT_SOURCES` guard checks), and
`set_source("Bluetooth_paired", state="on")` passes the guard and sends
the set command with code 15 to the wire; the call then fails only
because the confirmation polls never read back the alias name. -/
theorem paired_variant_settable :
    ("Bluetooth_paired" ∈ INPUT_SOURCES.map Prod.fst)
  ∧ (lookupSource "Bluetooth_paired").isSome = true
  ∧ (set_source devBluetooth cfg20LR "Bluetooth_paired" "on" env0).2.sent.head?
      = some [83, 48, 129, 15]
  ∧ (set_source devBluetooth cfg20LR "Bluetooth_paired" "on" env0).1
      = Except.error Err.timeoutError := by
  refine ⟨by decide, by decide, by decide, by decide⟩

/-- C4 counterexample: decoding the raw volume byte 178 yields the pair
(178, muted), not (50, muted): the code returns the raw byte as the
level and never subtracts the +128 mute offset. -/
theorem volume_decode_raw_not_mod :
    decode_volume_raw 178 = (178, true)
  ∧ (178 : Nat) ≠ 178 % 128
  ∧ (get_volume_and_is_muted_raw volDev ⟨178, []⟩).1 = Except.ok (178, true)
  ∧ (get_volume_and_is_muted_raw volDev ⟨178, []⟩).1
      ≠ Except.ok (178 % 128, true) := by
  refine ⟨by decide, by decide, by decide, by decide⟩

/-- C4 amended: for every raw volume byte `v`, the decoded pair is
`(v, v >= 128)`: the mute flag is as claimed, but the level component
is the raw byte, which equals `v mod 128` exactly when `v < 128`. So
decoding a level L in 0..100 gives `(L, not muted)`, while decoding
`L + 128` gives `(L + 128, muted)`, not `(L, muted)`; the underlying
level `v mod 128` is only recovered by the mute/unmute write-backs. -/
theorem volume_decode_amended :
    (∀ v : Nat, decode_volume_raw v = (v, decide (128 ≤ v))
      ∧ ((decode_volume_raw v).1 = v % 128 ↔ v < 128))
  ∧ (∀ L : Nat, L ≤ 100 → decode_volume_raw L = (L, false))
  ∧ (∀ L : Nat, L ≤ 100 → decode_volume_raw (L + 128) = (L + 128, true))
  ∧ (get_volume_and_is_muted_raw volDev ⟨50, []⟩).1 = Except.ok (50, false)
  ∧ (get_volume_and_is_muted_raw volDev ⟨178, []⟩).1 = Except.ok (178, true) := by
  refine ⟨fun v => ⟨rfl, ?_⟩, fun L h => ?_, fun L h => ?_, by decide, by decide⟩
  · simp only [decode_volume_raw]; omega
  · unfold decode_volume_raw
    rw [decide_eq_false (by omega : ¬ 128 ≤ L)]
  · unfold decode_volume_raw
    rw [decide_eq_true (by omega : 128 ≤ L + 128)]

/-- C4 amended witness: at L = 50, decoding 50 gives (50, unmuted) and
decoding 178 gives (178, muted). -/
theorem volume_decode_amended_witness :
    (50 : Nat) ≤ 100
  ∧ decode_volume_raw 50 = (50, false)
  ∧ decode_volume_raw (50 + 128) = (50 + 128, true) :=
  ⟨by decide, volume_decode_amended.2.1 50 (by decide),
   volume_decode_amended.2.2.1 50 (by decide)⟩

/-- C5: `mute()` writes back `(v mod 128) + 128` and `unmute()` writes
back `v mod 128`, so the numeric level `v mod 128` is preserved; the
second of two consecutive `mute()` calls rewrites the same byte, so the
speaker stays muted at the same level.  Concretely, from stored byte
50, `mute` stores 178; a second `mute` leaves 178; `unmute` restores
50. -/
theorem mute_unmute_preserve_level :
    (∀ v : Nat, muteWriteValue v % 128 = v % 128
      ∧ unmuteWriteValue v = v % 128
      ∧ 128 ≤ muteWriteValue v
      ∧ muteWriteValue (muteWriteValue v) = muteWriteValue v
      ∧ unmuteWriteValue (muteWriteValue v) = v % 128)
  ∧ (mute volDev ⟨50, []⟩).2.dev = 178
  ∧ (mute volDev ⟨50, []⟩).2.sent = [getVolumeMsg, setVolumeMsg 178]
  ∧ (mute volDev ((mute volDev ⟨50, []⟩).2)).2.dev = 178
  ∧ (unmute volDev ((mute volDev ⟨50, []⟩).2)).2.dev = 50 := by
  refine ⟨fun v => ?_, by decide, by decide, by decide, by decide⟩
  unfold muteWriteValue unmuteWriteValue
  omega

set_option maxHeartbeats 1600000 in
/-- C7: with the speaker muted at raw volume byte 178,
`increase_volume()` reads the level (`None` while muted) and the mute
flag, unmutes (writing level 50 back), and then raises
`AssertionError` at `assert volume is not None` instead of setting the
new level: the volume was captured before the unmute, while still
muted. -/
theorem muted_change_volume_asserts :
    (increase_volume volDev cfg20LR ⟨178, []⟩).1
      = Except.error Err.assertionError
  ∧ (increase_volume volDev cfg20LR ⟨178, []⟩).2.sent
      = [getVolumeMsg, getVolumeMsg, getVolumeMsg, setVolumeMsg 50]
  ∧ (increase_volume volDev cfg20LR ⟨178, []⟩).2.dev = 50 := by
  refine ⟨by decide, by decide, by decide⟩

set_option maxHeartbeats 1600000 in
/-- C6 counterexample: `turn_on()` on an already-on speaker does issue
wire traffic (the state query it needs to decide it is on), and
`turn_on()` on a speaker that never reaches the on state exhausts its
20 polls and returns `ok` — it does not raise a timeout error. -/
theorem turn_on_traffic_and_no_timeout :
    (turn_on devAuxOn cfg20LR none env0).1 = Except.ok ()
  ∧ (turn_on devAuxOn cfg20LR none env0).2.sent = [[71, 48, 128]]
  ∧ (turn_on devAuxOn cfg20LR none env0).2.sent ≠ []
  ∧ (turn_on devAuxOff cfg20LR none env0).1 = Except.ok ()
  ∧ (turn_on devAuxOff cfg20LR none env0).1 ≠ Except.error Err.timeoutError := by
  have hOn : turn_on devAuxOn cfg20LR none env0
      = (Except.ok (), ⟨(), [getSourceMsg]⟩) := by
    have h := turn_on_stateless_on devAuxOnFun cfg20LR
      ⟨"Aux", true, some 20, "L/R"⟩ env0 (by decide) rfl
    simpa [devAuxOn, env0] using h
  have hOff := turn_on_devAuxOff env0
  exact ⟨by rw [hOn], by rw [hOn]; rfl, by rw [hOn]; decide,
    by rw [hOff], by rw [hOff]; decide⟩

/-- C6 amended: `turn_on()`/`turn_off()` first issue one state query;
when the speaker is already in the target power state they return after
that single query without sending any set command; otherwise they send
the set command and poll the power state up to 20 times, and when the
bound is exhausted they return normally without raising (no timeout
error): concretely, on the always-off device `turn_on` ends `ok` after
the query, the set, one source-confirmation poll and 20 failed power
polls. -/
theorem turn_on_off_amended :
    (∀ f : List Nat → List Nat, ∀ cfg : Config, ∀ st : State, ∀ e : Env Unit,
      (extractReply getSourceMsg (f getSourceMsg)).bind decode_state
          = Except.ok st →
      (st.is_on = true →
        turn_on (statelessDev f) cfg none e
          = (Except.ok (), ⟨(), e.sent ++ [getSourceMsg]⟩))
      ∧ (st.is_on = false →
        turn_off (statelessDev f) cfg e
          = (Except.ok (), ⟨(), e.sent ++ [getSourceMsg]⟩)))
  ∧ (turn_on devAuxOff cfg20LR none env0).1 = Except.ok ()
  ∧ (turn_on devAuxOff cfg20LR none env0).2.sent
      = [getSourceMsg] ++ [setSourceMsg 10] ++ [getSourceMsg]
        ++ List.replicate 20 getSourceMsg := by
  refine ⟨fun f cfg st e h =>
    ⟨fun hon => turn_on_stateless_on f cfg st e h hon,
     fun hoff => turn_off_stateless_off f cfg st e h hoff⟩, ?_, ?_⟩
  · rw [turn_on_devAuxOff env0]
  · rw [turn_on_devAuxOff env0]; rfl

/-- C6 amended witness: the already-on branch at the concrete Aux-on
device: exactly one message, the get-source query. -/
theorem turn_on_off_amended_witness :
    (extractReply getSourceMsg (devAuxOnFun getSourceMsg)).bind decode_state
      = Except.ok ⟨"Aux", true, some 20, "L/R"⟩
  ∧ turn_on (statelessDev devAuxOnFun) cfg20LR none env0
      = (Except.ok (), ⟨(), env0.sent ++ [getSourceMsg]⟩) :=
  ⟨by decide,
   (turn_on_off_amended.1 devAuxOnFun cfg20LR
     ⟨"Aux", true, some 20, "L/R"⟩ env0 (by decide)).1 rfl⟩

/-- Any set-volume command is acknowledged by the ack device. -/
theorem set_volume_wire_ack (w : Nat) (e : Env Unit) :
    set_volume_wire ackVolDev w e =
      (Except.ok (), ⟨(), e.sent ++ [setVolumeMsg w]⟩) := rfl

/-- C8: for every requested value and nonnegative configured maximum,
`set_volume` clamps the value to `[0, maximum_volume]`, sends the wire
message carrying `int(clamped * 100)` and returns the clamped value;
in particular `set_volume(1.5)` with `maximum_volume = 1.0` returns
`1.0` and sends wire value 100. -/
theorem set_volume_clamps :
    (∀ maxv value : ℚ, 0 ≤ maxv →
      0 ≤ pyMax 0 (pyMin maxv value)
      ∧ pyMax 0 (pyMin maxv value) ≤ maxv
      ∧ set_volume ackVolDev (cfgMax maxv) value env0
          = (Except.ok (pyMax 0 (pyMin maxv value)),
              ⟨(), [setVolumeMsg (pyInt (pyMax 0 (pyMin maxv value) * 100)).toNat]⟩))
  ∧ set_volume ackVolDev (cfgMax 1) (3 / 2) env0
      = (Except.ok 1, ⟨(), [[83, 37, 129, 100]]⟩) := by
  have hrun : ∀ maxv value : ℚ,
      set_volume ackVolDev (cfgMax maxv) value env0
        = (Except.ok (pyMax 0 (pyMin maxv value)),
            ⟨(), [setVolumeMsg (pyInt (pyMax 0 (pyMin maxv value) * 100)).toNat]⟩) := by
    intro maxv value
    rw [set_volume, bind_apply_ok _ _ _ _ _ (set_volume_wire_ack _ _)]
    rfl
  constructor
  · intro maxv value h
    refine ⟨?_, ?_, hrun maxv value⟩
    · unfold pyMax pyMin; split_ifs <;> linarith
    · unfold pyMax pyMin; split_ifs <;> linarith
  · rw [hrun 1 (3 / 2)]
    have h1 : pyMax 0 (pyMin (1 : ℚ) (3 / 2)) = 1 := by
      unfold pyMax pyMin; norm_num
    rw [h1]
    have h2 : (pyInt ((1 : ℚ) * 100)).toNat = 100 := by
      unfold pyInt; norm_num; decide
    rw [h2]; rfl

/-- C8 witness: the general clamp statement at maximum 1 and request
1.5. -/
theorem set_volume_clamps_witness :
    (0 : ℚ) ≤ 1
  ∧ (0 ≤ pyMax 0 (pyMin (1 : ℚ) (3 / 2))
      ∧ pyMax 0 (pyMin (1 : ℚ) (3 / 2)) ≤ 1
      ∧ set_volume ackVolDev (cfgMax 1) (3 / 2) env0
          = (Except.ok (pyMax 0 (pyMin (1 : ℚ) (3 / 2))),
              ⟨(), [setVolumeMsg
                (pyInt (pyMax 0 (pyMin (1 : ℚ) (3 / 2)) * 100)).toNat]⟩)) :=
  ⟨by norm_num, set_volume_clamps.1 1 (3 / 2) (by norm_num)⟩

/-- C9: on a read timeout, `_send_message` does not return empty data:
the local `data` is assigned only inside the `try` block, the `except`
clause only logs, and `finally: return data` then raises
`UnboundLocalError`; a completed read is returned as-is. -/
theorem send_message_timeout_unbound :
    send_message_read none = Except.error Err.unboundLocalError
  ∧ send_message_read none ≠ Except.ok []
  ∧ (∀ d : List Nat, send_message_read (some d) = Except.ok d) :=
  ⟨rfl, by decide, fun d => rfl⟩

/-- C10: when every attempt is refused the fast reconnect loop gives up
after 10 attempts and `is_online()` returns false without raising; a
host-down failure also yields false without raising; a successful
connection yields true; in general `is_online` never propagates an
error on any terminating `open_connection` run. -/
theorem is_online_no_raise :
    is_online (fun _ => AttemptResult.refused) 11 = Except.ok false
  ∧ open_connection (fun _ => AttemptResult.refused) 11
      = ConnOutcome.triesExceeded
  ∧ is_online (fun _ => AttemptResult.hostDown) 5 = Except.ok false
  ∧ is_online (fun _ => AttemptResult.success) 5 = Except.ok true
  ∧ (∀ att fuel, open_connection att fuel = ConnOutcome.connected →
      is_online att fuel = Except.ok true)
  ∧ (∀ att fuel, open_connection att fuel ≠ ConnOutcome.outOfFuel →
      ∃ b, is_online att fuel = Except.ok b) := by
  refine ⟨by decide, by decide, by decide, by decide,
    fun att fuel h => ?_, fun att fuel h => ?_⟩
  · unfold is_online; rw [h]
  · unfold is_online
    cases hc : open_connection att fuel with
    | connected => exact ⟨true, rfl⟩
    | offline => exact ⟨false, rfl⟩
    | triesExceeded => exact ⟨false, rfl⟩
    | outOfFuel => exact absurd hc h

/-- C10 witness: a first-attempt success connects and reports online. -/
theorem is_online_no_raise_witness :
    open_connection (fun _ => AttemptResult.success) 1 = ConnOutcome.connected
  ∧ is_online (fun _ => AttemptResult.success) 1 = Except.ok true :=
  ⟨by decide,
   is_online_no_raise.2.2.2.2.1 (fun _ => AttemptResult.success) 1 (by decide)⟩

end Aiokef
